import Mathlib

/-!
# Verification of the DDS661/SDM230 Modbus meter library

Shallow embedding of the register-level float32 codec, the device drivers'
measurement/parameter read and write logic, and the polling orchestrator of
the `dds661` repository (files `dds661.py`, `sdm230.py`, `modbus_meter.py`,
`polling.py`, `dds661_polling.py`).

Modelling conventions:
* An IEEE-754 binary32 value is represented by its 32-bit pattern, a `Nat`
  below `2 ^ 32`.  `struct.pack('>f', x)` yields the four big-endian bytes of
  that pattern, so the byte-shuffling done by `_float_to_registers` /
  `_registers_to_float` is embedded as arithmetic on the pattern.
* The numeric value denoted by a finite binary32 pattern is recovered by
  `b32val : Nat → Option ℚ` (IEEE-754 semantics of `struct.unpack('>f', ...)`;
  `none` for the NaN/infinity exponent).
* Python `float` parameter values handled by the write planner are embedded
  as `ℚ`; the comparisons the code performs (`abs (a - b) < 1e-6`, table
  lookups on exact constants) are exact at every point the claims exercise.
* Modbus read/write results (`rr.isError()`) are embedded as explicit
  error/ok alternatives; the transport is a function supplied as a parameter.
-/

namespace DDS661Spec

/-! ## Float32 register codec (`dds661.py`, `_float_to_registers` /
`_registers_to_float`)

`_float_to_registers` packs the float as 4 big-endian bytes `b0 b1 b2 b3`
and returns `hi = (b0 << 8) | b1`, `lo = (b2 << 8) | b3`.
`_registers_to_float` masks each register to 16 bits, rebuilds the byte
string `[(hi>>8)&0xFF, hi&0xFF, (lo>>8)&0xFF, lo&0xFF]` and unpacks it.
Shifts and masks become division/remainder by powers of two; `|` of
disjoint byte fields becomes `+`. -/

/-- `_float_to_registers` on the 32-bit pattern `w` of `float(value)`:
split the four big-endian bytes into `(hi, lo)` word values. -/
def float_to_registers (w : Nat) : Nat × Nat :=
  let b0 := w / 16777216 % 256
  let b1 := w / 65536 % 256
  let b2 := w / 256 % 256
  let b3 := w % 256
  (b0 * 256 + b1, b2 * 256 + b3)

/-- `_registers_to_float` down to the reconstructed 32-bit pattern: mask each
register to 16 bits, extract the four bytes, and reassemble them
big-endian. -/
def registers_to_float (hi lo : Nat) : Nat :=
  let hi' := hi % 65536
  let lo' := lo % 65536
  (hi' / 256 % 256) * 16777216 + (hi' % 256) * 65536 +
    (lo' / 256 % 256) * 256 + lo' % 256

/-- IEEE-754 binary32 value of a 32-bit pattern, as used by
`struct.unpack('>f', ...)`: sign bit, 8 exponent bits, 23 fraction bits;
`none` when the exponent field is all ones (NaN or infinity).  A normal
pattern denotes `(-1)^s * (2^23 + f) * 2^e / 2^150`, a subnormal one
`(-1)^s * f / 2^149`. -/
def b32val (w : Nat) : Option ℚ :=
  let s : Nat := w / 2 ^ 31
  let e : Nat := w / 2 ^ 23 % 2 ^ 8
  let f : Nat := w % 2 ^ 23
  if e = 255 then none
  else
    let mag : ℚ :=
      if e = 0 then (f : ℚ) / 2 ^ 149
      else ((2 ^ 23 + f : Nat) : ℚ) * 2 ^ e / 2 ^ 150
    some (if s = 1 then -mag else mag)

/-- C1: the register codec round-trips every 32-bit float pattern
bit-for-bit: for any binary32 pattern `w` (in particular the pattern of
`float32(x)` for finite `x`, and the NaN/infinity patterns),
`_registers_to_float (_float_to_registers w) = w`, so decoding the register
pair produced by encoding `x` returns exactly the float32 rounding of `x`. -/
theorem codec_roundtrip (w : Nat) (h : w < 4294967296) :
    registers_to_float (float_to_registers w).1 (float_to_registers w).2 = w := by
  unfold float_to_registers registers_to_float
  simp only
  omega

/-- Witness for `codec_roundtrip` at the quiet-NaN pattern `0x7FC00000`. -/
theorem codec_roundtrip_witness :
    (0x7FC00000 : Nat) < 4294967296 ∧
      registers_to_float (float_to_registers 0x7FC00000).1
        (float_to_registers 0x7FC00000).2 = 0x7FC00000 :=
  ⟨by decide, codec_roundtrip 0x7FC00000 (by decide)⟩

/-- C2 counterexample: the register pair `(0x4615, 0x2000)` claimed for
`encode(9600.0)` is wrong.  Decoding it yields the pattern `0x46152000`,
whose IEEE-754 value is `9544`, not `9600`; the pattern whose value is
`9600` is `0x46160000`, a different word.  Hence `encode(9600.0)` — whose
output decodes back to the pattern of `9600.0f` by the round-trip law —
cannot be `(0x4615, 0x2000)`. -/
theorem encode_9600_claim_false :
    b32val (registers_to_float 0x4615 0x2000) = some 9544 ∧
      (9544 : ℚ) ≠ 9600 ∧
      b32val 0x46160000 = some 9600 ∧
      registers_to_float 0x4615 0x2000 ≠ 0x46160000 := by
  refine ⟨?_, by norm_num, ?_, by decide⟩ <;> · simp only [b32val, registers_to_float]; norm_num

/-- C2 (amended): encoding the value `9600.0` with the float32 register
codec yields `hi = 0x4616`, `lo = 0x0000`: the unique pattern the codec
splits is `0x46160000`, whose IEEE-754 binary32 value is exactly `9600`. -/
theorem encode_9600_registers :
    float_to_registers 0x46160000 = (0x4616, 0x0000) ∧
      b32val 0x46160000 = some 9600 :=
  ⟨by decide, by simp only [b32val]; norm_num⟩

/-! ## Parameter holding-register addresses -/

/-- DDS661 holding register for the baud rate (`dds661.py`, `REG_BAUD`). -/
def REG_BAUD : Nat := 0x0000

/-- DDS661 holding register for the parity code (`dds661.py`, `REG_PARITY`). -/
def REG_PARITY : Nat := 0x0002

/-- DDS661 holding register for the slave id (`dds661.py`, `REG_SLAVE`). -/
def REG_SLAVE : Nat := 0x0008

/-- SDM230 holding register for the parity code (`sdm230.py`, `REG_PARITY`). -/
def SDM_REG_PARITY : Nat := 0x0012

/-- SDM230 holding register for the slave id (`sdm230.py`, `REG_SLAVE`). -/
def SDM_REG_SLAVE : Nat := 0x0014

/-- SDM230 holding register for the baud enum code (`sdm230.py`, `REG_BAUD`). -/
def SDM_REG_BAUD : Nat := 0x001C

/-! ## Parameter write planner (`DDS661.write_params`, `SDM230.write_params`,
`modbus_meter.write_params`)

The loop shared by all three copies: for each of the plan entries
`("slave", REG_SLAVE, slave)`, `("parity", REG_PARITY, parity)`,
`("baud", REG_BAUD, baud)` in that order — skip a `None` desired value,
skip (outcome "unchanged") when `abs(cur_val - desired) < 1e-6`, otherwise
issue a 2-register write under the currently-known unit id; on success
record "written" and, for the slave field, update the in-memory unit id to
`int(desired)`; on an error result record an "ERROR" outcome and continue.

Parameter values are embedded as `ℚ`; the write transport is an oracle
`ok : String → Bool` giving, per field name, whether the issued write
returns a non-error result (`rq.isError()` false).  Each issued register
write is recorded in a trace as `(field name, address, unit id used)`. -/

/-- Current parameter snapshot returned by `read_params` (`Params`
dataclass). -/
structure Params where
  baud : ℚ
  parity : ℚ
  slave : ℚ
deriving DecidableEq

/-- `getattr(cur, name)` for the three plan field names. -/
def Params.get (p : Params) (name : String) : ℚ :=
  if name = "slave" then p.slave
  else if name = "parity" then p.parity
  else p.baud

lemma Params.get_slave (p : Params) : p.get "slave" = p.slave := rfl

lemma Params.get_parity (p : Params) : p.get "parity" = p.parity := by
  unfold Params.get
  rw [if_neg (by decide), if_pos rfl]

lemma Params.get_baud (p : Params) : p.get "baud" = p.baud := by
  unfold Params.get
  rw [if_neg (by decide), if_neg (by decide)]

/-- The no-op threshold `1e-6` of the write planner. -/
def EPS : ℚ := 1 / 1000000

/-- One issued holding-register write: field name, start address, and the
unit/slave id the request was sent under. -/
structure WriteEv where
  name : String
  addr : Nat
  unitUsed : Int
deriving DecidableEq

/-- The four outcome strings a field can receive in the report:
`"skipped (None)"`, `"unchanged (...)"`, `"written (...)"`, `"ERROR: ..."`. -/
inductive Outcome where
  | skipped
  | unchanged (v : ℚ)
  | written (v : ℚ)
  | error
deriving DecidableEq

/-- Driver state threaded through the write loop: the in-memory unit id
(`self.unit` / `conn.slave`), the report built so far, and the trace of
issued register writes. -/
structure WState where
  unit : Int
  report : List (String × Outcome)
  writes : List WriteEv
deriving DecidableEq

/-- Python `int(d)` on a float: truncation toward zero (`Int.div` of the
numerator by the denominator truncates toward zero like Python `int`). -/
def pyInt (d : ℚ) : Int := d.num / (d.den : Int)

/-- One iteration of the `for name, addr, desired in plan` loop body. -/
def processField (ok : String → Bool) (cur : Params) (st : WState)
    (name : String) (addr : Nat) (desired : Option ℚ) : WState :=
  match desired with
  | none => { st with report := st.report ++ [(name, Outcome.skipped)] }
  | some d =>
    if |cur.get name - d| < EPS then
      { st with report := st.report ++ [(name, Outcome.unchanged d)] }
    else
      let st' : WState :=
        { st with writes := st.writes ++ [⟨name, addr, st.unit⟩] }
      if ok name then
        { st' with
          report := st'.report ++ [(name, Outcome.written d)],
          unit := if name = "slave" then pyInt d else st'.unit }
      else
        { st' with report := st'.report ++ [(name, Outcome.error)] }

/-- `DDS661.write_params(baud, parity, slave)` after the initial
`read_params` snapshot `cur`, starting from unit id `unit0`: the plan is
processed in the fixed order slave, parity, baud. -/
def write_params (ok : String → Bool) (cur : Params)
    (slave parity baud : Option ℚ) (unit0 : Int) : WState :=
  let st0 : WState := ⟨unit0, [], []⟩
  let st1 := processField ok cur st0 "slave" REG_SLAVE slave
  let st2 := processField ok cur st1 "parity" REG_PARITY parity
  processField ok cur st2 "baud" REG_BAUD baud

/-! ## SDM230 baud enum mapping (`sdm230.py`) -/

/-- `_BAUD_FROM_CODE`: device enum code to actual baud rate. -/
def BAUD_FROM_CODE (c : ℚ) : Option ℚ :=
  if c = 0 then some 2400
  else if c = 1 then some 4800
  else if c = 2 then some 9600
  else if c = 5 then some 1200
  else none

/-- `_BAUD_TO_CODE`: inverse table, actual baud rate to device enum code. -/
def BAUD_TO_CODE (v : ℚ) : Option ℚ :=
  if v = 2400 then some 0
  else if v = 4800 then some 1
  else if v = 9600 then some 2
  else if v = 1200 then some 5
  else none

/-- `SDM230.read_params`: given the three decoded holding-register floats,
report the baud via `_BAUD_FROM_CODE.get(code, code)` (an unknown code
falls back to the raw code) and parity/slave unchanged. -/
def sdm230_read_params (baud_code parity slave : ℚ) : Params :=
  ⟨(BAUD_FROM_CODE baud_code).getD baud_code, parity, slave⟩

/-- `SDM230.write_params`'s `_desired`: `None` passes through; for the baud
field a known actual rate is replaced by its enum code, an unknown value is
written raw; other fields pass through. -/
def sdm_desired (name : String) (val : Option ℚ) : Option ℚ :=
  match val with
  | none => none
  | some v =>
    if name = "baud" then some ((BAUD_TO_CODE v).getD v) else some v

/-- `SDM230.write_params(baud, parity, slave)` after the `read_params`
snapshot `cur`: identical loop to the DDS661 driver, over the SDM230
addresses, with each desired value first run through `_desired`. -/
def sdm230_write_params (ok : String → Bool) (cur : Params)
    (slave parity baud : Option ℚ) (unit0 : Int) : WState :=
  let st0 : WState := ⟨unit0, [], []⟩
  let st1 := processField ok cur st0 "slave" SDM_REG_SLAVE
    (sdm_desired "slave" slave)
  let st2 := processField ok cur st1 "parity" SDM_REG_PARITY
    (sdm_desired "parity" parity)
  processField ok cur st2 "baud" SDM_REG_BAUD (sdm_desired "baud" baud)

/-! ## Per-field characterization of the write loop -/

/-- The outcome one plan entry receives, as a function of its own inputs
only: absent argument ↦ skipped, `|current - desired| < 1e-6` ↦ unchanged,
non-error write ↦ written, error result ↦ ERROR. -/
def outcomeSpec (ok : String → Bool) (cur : Params) (name : String)
    (desired : Option ℚ) : Outcome :=
  match desired with
  | none => Outcome.skipped
  | some d =>
    if |cur.get name - d| < EPS then Outcome.unchanged d
    else if ok name then Outcome.written d
    else Outcome.error

/-- The register writes one plan entry issues when processed with unit id
`u`: none if skipped or unchanged, otherwise exactly one 2-register write
under `u`. -/
def writesSpec (cur : Params) (name : String) (addr : Nat)
    (desired : Option ℚ) (u : Int) : List WriteEv :=
  match desired with
  | none => []
  | some d =>
    if |cur.get name - d| < EPS then [] else [⟨name, addr, u⟩]

/-- The unit id after one plan entry is processed starting from `u`:
changed to `int(desired)` exactly by a successful write of the slave
field. -/
def unitSpec (ok : String → Bool) (cur : Params) (name : String)
    (desired : Option ℚ) (u : Int) : Int :=
  match desired with
  | none => u
  | some d =>
    if |cur.get name - d| < EPS then u
    else if ok name then (if name = "slave" then pyInt d else u) else u

lemma processField_eq (ok : String → Bool) (cur : Params) (st : WState)
    (name : String) (addr : Nat) (desired : Option ℚ) :
    processField ok cur st name addr desired =
      ⟨unitSpec ok cur name desired st.unit,
       st.report ++ [(name, outcomeSpec ok cur name desired)],
       st.writes ++ writesSpec cur name addr desired st.unit⟩ := by
  cases desired with
  | none => simp [processField, unitSpec, outcomeSpec, writesSpec]
  | some d =>
    simp only [processField, unitSpec, outcomeSpec, writesSpec]
    split_ifs <;> simp

lemma unitSpec_ne_slave (ok : String → Bool) (cur : Params) (name : String)
    (desired : Option ℚ) (u : Int) (h : name ≠ "slave") :
    unitSpec ok cur name desired u = u := by
  cases desired with
  | none => rfl
  | some d =>
    simp only [unitSpec, h, if_false]
    split_ifs <;> rfl

lemma write_params_eq (ok : String → Bool) (cur : Params)
    (s p b : Option ℚ) (u0 : Int) :
    write_params ok cur s p b u0 =
      ⟨unitSpec ok cur "slave" s u0,
       [("slave", outcomeSpec ok cur "slave" s),
        ("parity", outcomeSpec ok cur "parity" p),
        ("baud", outcomeSpec ok cur "baud" b)],
       writesSpec cur "slave" REG_SLAVE s u0 ++
         writesSpec cur "parity" REG_PARITY p (unitSpec ok cur "slave" s u0) ++
         writesSpec cur "baud" REG_BAUD b (unitSpec ok cur "slave" s u0)⟩ := by
  simp [write_params, processField_eq, unitSpec_ne_slave]

lemma sdm230_write_params_eq (ok : String → Bool) (cur : Params)
    (s p b : Option ℚ) (u0 : Int) :
    sdm230_write_params ok cur s p b u0 =
      ⟨unitSpec ok cur "slave" (sdm_desired "slave" s) u0,
       [("slave", outcomeSpec ok cur "slave" (sdm_desired "slave" s)),
        ("parity", outcomeSpec ok cur "parity" (sdm_desired "parity" p)),
        ("baud", outcomeSpec ok cur "baud" (sdm_desired "baud" b))],
       writesSpec cur "slave" SDM_REG_SLAVE (sdm_desired "slave" s) u0 ++
         writesSpec cur "parity" SDM_REG_PARITY (sdm_desired "parity" p)
           (unitSpec ok cur "slave" (sdm_desired "slave" s) u0) ++
         writesSpec cur "baud" SDM_REG_BAUD (sdm_desired "baud" b)
           (unitSpec ok cur "slave" (sdm_desired "slave" s) u0)⟩ := by
  simp [sdm230_write_params, processField_eq, unitSpec_ne_slave]

lemma mem_writesSpec_name {cur : Params} {name : String} {addr : Nat}
    {desired : Option ℚ} {u : Int} {ev : WriteEv}
    (h : ev ∈ writesSpec cur name addr desired u) :
    ev.name = name ∧ ev.addr = addr ∧ ev.unitUsed = u := by
  cases desired with
  | none => simp [writesSpec] at h
  | some d =>
    simp only [writesSpec] at h
    split_ifs at h <;> simp_all

/-- C4: the write plan is processed in the fixed order slave, parity,
baud; every issued register write goes out under the currently-known unit
id — the slave write itself under the initial id `u0`, every later write
under the unit id as it stands after the slave step; and a successful
slave write (desired value differing from the current one, non-error
result) updates the in-memory unit id to `int(desired)` immediately, so
the final state and all parity/baud writes carry the new id. -/
theorem write_plan_unit_discipline (ok : String → Bool) (cur : Params)
    (s p b : Option ℚ) (u0 : Int) :
    ((write_params ok cur s p b u0).report.map Prod.fst =
      ["slave", "parity", "baud"]) ∧
    (((write_params ok cur s p b u0).writes.map WriteEv.name).Sublist
      ["slave", "parity", "baud"]) ∧
    (∀ ev ∈ (write_params ok cur s p b u0).writes,
      ev.name = "slave" → ev.unitUsed = u0) ∧
    (∀ ev ∈ (write_params ok cur s p b u0).writes,
      ev.name ≠ "slave" → ev.unitUsed = unitSpec ok cur "slave" s u0) ∧
    (∀ d, s = some d → ¬|cur.get "slave" - d| < EPS →
      ok "slave" = true →
      unitSpec ok cur "slave" s u0 = pyInt d ∧
      (write_params ok cur s p b u0).unit = pyInt d ∧
      (⟨"slave", REG_SLAVE, u0⟩ : WriteEv) ∈
        (write_params ok cur s p b u0).writes) := by
  have hsub : ∀ (name : String) (addr : Nat) (desired : Option ℚ) (u : Int),
      ((writesSpec cur name addr desired u).map WriteEv.name).Sublist [name] := by
    intro name addr desired u
    cases desired with
    | none => simp [writesSpec]
    | some d =>
      simp only [writesSpec]
      split_ifs <;> simp
  rw [write_params_eq]
  refine ⟨by simp, ?_, ?_, ?_, ?_⟩
  · simp only [List.map_append]
    exact ((hsub _ _ _ _).append (hsub _ _ _ _)).append (hsub _ _ _ _)
  · intro ev hev hname
    simp only [List.mem_append] at hev
    rcases hev with (hev | hev) | hev
    · exact (mem_writesSpec_name hev).2.2
    · exact absurd ((mem_writesSpec_name hev).1.trans rfl)
        (by rw [(mem_writesSpec_name hev).1] at hname; simp_all)
    · exact absurd ((mem_writesSpec_name hev).1.trans rfl)
        (by rw [(mem_writesSpec_name hev).1] at hname; simp_all)
  · intro ev hev hname
    simp only [List.mem_append] at hev
    rcases hev with (hev | hev) | hev
    · exact absurd (mem_writesSpec_name hev).1 (by simp_all)
    · exact (mem_writesSpec_name hev).2.2
    · exact (mem_writesSpec_name hev).2.2
  · intro d hd hne hok
    subst hd
    refine ⟨?_, ?_, ?_⟩ <;>
      simp [unitSpec, writesSpec, hne, hok]

/-- Witness for `write_plan_unit_discipline` at the spec's example:
current `{slave: 1, parity: 0, baud: 9600}`, desired
`{slave: 5, parity: None, baud: 9600}`, all writes succeeding, initial
unit id 1 — the slave write goes out under unit id 1 and the unit id
becomes 5. -/
theorem write_plan_unit_discipline_witness :
    ((write_params (fun _ => true) ⟨9600, 0, 1⟩ (some 5) none (some 9600) 1).report.map
        Prod.fst = ["slave", "parity", "baud"]) ∧
    unitSpec (fun _ => true) ⟨9600, 0, 1⟩ "slave" (some 5) 1 = pyInt 5 ∧
    (write_params (fun _ => true) ⟨9600, 0, 1⟩ (some 5) none (some 9600) 1).unit =
      pyInt 5 ∧
    (⟨"slave", REG_SLAVE, 1⟩ : WriteEv) ∈
      (write_params (fun _ => true) ⟨9600, 0, 1⟩ (some 5) none (some 9600) 1).writes := by
  have h := write_plan_unit_discipline (fun _ => true) ⟨9600, 0, 1⟩
    (some 5) none (some 9600) 1
  have h5 := h.2.2.2.2 5 rfl (by norm_num [Params.get_slave, EPS]) rfl
  exact ⟨h.1, h5.1, h5.2.1, h5.2.2⟩

/-- C10: every `write_params` call that returns produces a report whose
keys are exactly slave, parity, baud — each exactly once — and each field's
single outcome is the one of the four forms its own condition dictates
(`outcomeSpec`: absent ↦ skipped, `|current - desired| < 1e-6` ↦ unchanged,
non-error write ↦ written, error result ↦ ERROR), for both the DDS661 and
the SDM230 driver. -/
theorem write_params_report_complete (ok : String → Bool) (cur : Params)
    (s p b : Option ℚ) (u0 : Int) :
    (write_params ok cur s p b u0).report.map Prod.fst =
        ["slave", "parity", "baud"] ∧
    (write_params ok cur s p b u0).report =
      [("slave", outcomeSpec ok cur "slave" s),
       ("parity", outcomeSpec ok cur "parity" p),
       ("baud", outcomeSpec ok cur "baud" b)] ∧
    (sdm230_write_params ok cur s p b u0).report.map Prod.fst =
        ["slave", "parity", "baud"] ∧
    (sdm230_write_params ok cur s p b u0).report =
      [("slave", outcomeSpec ok cur "slave" (sdm_desired "slave" s)),
       ("parity", outcomeSpec ok cur "parity" (sdm_desired "parity" p)),
       ("baud", outcomeSpec ok cur "baud" (sdm_desired "baud" b))] := by
  rw [write_params_eq, sdm230_write_params_eq]
  exact ⟨by simp, rfl, by simp, rfl⟩

/-- C6: a failing write for one planned field is isolated — here, if the
parity value is planned and differs but its register write returns an
error, the report records the ERROR outcome for parity, the baud field
still receives its own independent outcome (and its register write is
still issued whenever its value differs), and an earlier successful slave
write keeps its written outcome (no rollback). -/
theorem write_failure_isolation (ok : String → Bool) (cur : Params)
    (s b : Option ℚ) (u0 : Int) (dp : ℚ)
    (hne : ¬|cur.get "parity" - dp| < EPS)
    (hfail : ok "parity" = false) :
    ("parity", Outcome.error) ∈
        (write_params ok cur s (some dp) b u0).report ∧
    (∀ db, b = some db →
      ("baud", outcomeSpec ok cur "baud" (some db)) ∈
          (write_params ok cur s (some dp) b u0).report ∧
      (¬|cur.get "baud" - db| < EPS →
        (⟨"baud", REG_BAUD, unitSpec ok cur "slave" s u0⟩ : WriteEv) ∈
          (write_params ok cur s (some dp) b u0).writes)) ∧
    (∀ ds, s = some ds → ¬|cur.get "slave" - ds| < EPS →
      ok "slave" = true →
      ("slave", Outcome.written ds) ∈
        (write_params ok cur s (some dp) b u0).report) := by
  rw [write_params_eq]
  refine ⟨?_, ?_, ?_⟩
  · simp [outcomeSpec, hne, hfail]
  · intro db hdb
    subst hdb
    constructor
    · simp
    · intro hbne
      simp [writesSpec, hbne]
  · intro ds hds hsne hok
    subst hds
    simp [outcomeSpec, hsne, hok]

/-- Witness for `write_failure_isolation`: current
`{slave: 1, parity: 0, baud: 9600}`, desired slave 5, parity 1, baud 4800,
with exactly the parity write failing. -/
theorem write_failure_isolation_witness :
    ("parity", Outcome.error) ∈
        (write_params (fun n => n != "parity") ⟨9600, 0, 1⟩ (some 5) (some 1)
          (some 4800) 1).report ∧
    ("baud", outcomeSpec (fun n => n != "parity") ⟨9600, 0, 1⟩ "baud"
        (some 4800)) ∈
        (write_params (fun n => n != "parity") ⟨9600, 0, 1⟩ (some 5) (some 1)
          (some 4800) 1).report ∧
    (⟨"baud", REG_BAUD,
        unitSpec (fun n => n != "parity") ⟨9600, 0, 1⟩ "slave" (some 5) 1⟩ :
        WriteEv) ∈
        (write_params (fun n => n != "parity") ⟨9600, 0, 1⟩ (some 5) (some 1)
          (some 4800) 1).writes ∧
    ("slave", Outcome.written 5) ∈
        (write_params (fun n => n != "parity") ⟨9600, 0, 1⟩ (some 5) (some 1)
          (some 4800) 1).report := by
  have h := write_failure_isolation (fun n => n != "parity") ⟨9600, 0, 1⟩
    (some 5) (some 4800) 1 1 (by norm_num [Params.get_parity, EPS]) rfl
  have hb := h.2.1 4800 rfl
  exact ⟨h.1, hb.1, hb.2 (by norm_num [Params.get_baud, EPS]),
    h.2.2 5 rfl (by norm_num [Params.get_slave, EPS]) rfl⟩

/-- C5 (code divergence): requesting the SDM230 baud equal to the actual
baud reported by `read_params` does NOT yield an "unchanged" outcome.  The
no-op test compares the decoded actual baud (`cur.baud = 9600`) against the
re-encoded enum code (`2`), so `|9600 - 2| < 1e-6` is false and the driver
issues a register write of the code and reports `written (2.0)` — with all
transports succeeding, current params `{baud: 9600, parity: 1, slave: 1}`
and `write_params(baud=9600.0)` the result is a write, not "unchanged". -/
theorem sdm230_baud_noop_rewritten :
    sdm230_write_params (fun _ => true) ⟨9600, 1, 1⟩ none none (some 9600) 1 =
      ⟨1,
       [("slave", Outcome.skipped), ("parity", Outcome.skipped),
        ("baud", Outcome.written 2)],
       [⟨"baud", SDM_REG_BAUD, 1⟩]⟩ ∧
    (sdm230_read_params 2 1 1).baud = 9600 := by
  constructor
  · rw [sdm230_write_params_eq]
    norm_num [sdm_desired, BAUD_TO_CODE, outcomeSpec, writesSpec, unitSpec,
      Params.get_baud, EPS]
  · norm_num [sdm230_read_params, BAUD_FROM_CODE]

/-- C7: the SDM230 driver decodes the baud enum register on read (code 2.0
is reported as 9600.0), encodes a requested actual baud on write (1200.0 is
written as code 5.0, not 1200.0), and passes an unknown code through
unchanged on read rather than rejecting it. -/
theorem sdm230_baud_enum_roundtrip (c pv sv : ℚ)
    (h0 : c ≠ 0) (h1 : c ≠ 1) (h2 : c ≠ 2) (h5 : c ≠ 5) :
    (sdm230_read_params 2 pv sv).baud = 9600 ∧
    sdm_desired "baud" (some 1200) = some 5 ∧
    (sdm230_read_params c pv sv).baud = c := by
  refine ⟨?_, ?_, ?_⟩
  · norm_num [sdm230_read_params, BAUD_FROM_CODE]
  · norm_num [sdm_desired, BAUD_TO_CODE]
  · simp [sdm230_read_params, BAUD_FROM_CODE, h0, h1, h2, h5]

/-- Witness for `sdm230_baud_enum_roundtrip` at the unknown code 7. -/
theorem sdm230_baud_enum_roundtrip_witness :
    (sdm230_read_params 2 0 1).baud = 9600 ∧
    sdm_desired "baud" (some 1200) = some 5 ∧
    (sdm230_read_params 7 0 1).baud = 7 :=
  sdm230_baud_enum_roundtrip 7 0 1 (by norm_num) (by norm_num) (by norm_num)
    (by norm_num)

/-! ## Measurement reads (`DDS661.read_measurements`,
`SDM230.read_measurements`)

Both drivers read each of the 8 input fields with its own 2-register
input-register read; a read whose result object reports an error
(`rr.isError()`, covering Modbus exception responses and transport-level
`ModbusIOException` results) yields `float("nan")` for that field only, and
the `Measurements` dataclass is always constructed with all 8 fields. -/

/-- Result of one 2-register input-register read: an error result
(`rr.isError()` true) or the two register words. -/
inductive RVal where
  | err
  | ok (hi lo : Nat)

/-- A measurement slot: `float("nan")` or a decoded float32 pattern. -/
inductive MFloat where
  | nan
  | val (bits : Nat)
deriving DecidableEq

/-- The `Measurements` dataclass: always fully populated with 8 fields. -/
structure Measurements where
  voltage : MFloat
  current : MFloat
  p_active : MFloat
  pf : MFloat
  freq : MFloat
  e_total : MFloat
  e_pos : MFloat
  e_rev : MFloat
deriving DecidableEq

/-- The 8 measurement fields. -/
inductive MeasKey where
  | voltage | current | p_active | pf | freq | e_total | e_pos | e_rev
deriving DecidableEq

/-- Field projection from the record. -/
def Measurements.get (m : Measurements) : MeasKey → MFloat
  | MeasKey.voltage => m.voltage
  | MeasKey.current => m.current
  | MeasKey.p_active => m.p_active
  | MeasKey.pf => m.pf
  | MeasKey.freq => m.freq
  | MeasKey.e_total => m.e_total
  | MeasKey.e_pos => m.e_pos
  | MeasKey.e_rev => m.e_rev

/-- DDS661 input-register addresses (`dds661.py`, `IN_*`). -/
def dds661_in_addr : MeasKey → Nat
  | MeasKey.voltage => 0x0000
  | MeasKey.current => 0x0008
  | MeasKey.p_active => 0x0012
  | MeasKey.pf => 0x002A
  | MeasKey.freq => 0x0036
  | MeasKey.e_total => 0x0100
  | MeasKey.e_pos => 0x0102
  | MeasKey.e_rev => 0x0103

/-- SDM230 input-register addresses (`sdm230.py`, `IN_*`). -/
def sdm230_in_addr : MeasKey → Nat
  | MeasKey.voltage => 0x0000
  | MeasKey.current => 0x0006
  | MeasKey.p_active => 0x000C
  | MeasKey.pf => 0x001E
  | MeasKey.freq => 0x0046
  | MeasKey.e_total => 0x0156
  | MeasKey.e_pos => 0x0048
  | MeasKey.e_rev => 0x004A

/-- The inner `_rin(addr)` helper: NaN on an error result, otherwise the
decoded float32 of the two registers. -/
def rin (bus : Nat → RVal) (addr : Nat) : MFloat :=
  match bus addr with
  | RVal.err => MFloat.nan
  | RVal.ok hi lo => MFloat.val (registers_to_float hi lo)

/-- `DDS661.read_measurements` over an input-register transport `bus`. -/
def dds661_read_measurements (bus : Nat → RVal) : Measurements :=
  ⟨rin bus (dds661_in_addr MeasKey.voltage),
   rin bus (dds661_in_addr MeasKey.current),
   rin bus (dds661_in_addr MeasKey.p_active),
   rin bus (dds661_in_addr MeasKey.pf),
   rin bus (dds661_in_addr MeasKey.freq),
   rin bus (dds661_in_addr MeasKey.e_total),
   rin bus (dds661_in_addr MeasKey.e_pos),
   rin bus (dds661_in_addr MeasKey.e_rev)⟩

/-- `SDM230.read_measurements` over an input-register transport `bus`. -/
def sdm230_read_measurements (bus : Nat → RVal) : Measurements :=
  ⟨rin bus (sdm230_in_addr MeasKey.voltage),
   rin bus (sdm230_in_addr MeasKey.current),
   rin bus (sdm230_in_addr MeasKey.p_active),
   rin bus (sdm230_in_addr MeasKey.pf),
   rin bus (sdm230_in_addr MeasKey.freq),
   rin bus (sdm230_in_addr MeasKey.e_total),
   rin bus (sdm230_in_addr MeasKey.e_pos),
   rin bus (sdm230_in_addr MeasKey.e_rev)⟩

lemma dds661_read_measurements_get (bus : Nat → RVal) (f : MeasKey) :
    (dds661_read_measurements bus).get f = rin bus (dds661_in_addr f) := by
  cases f <;> rfl

lemma sdm230_read_measurements_get (bus : Nat → RVal) (f : MeasKey) :
    (sdm230_read_measurements bus).get f = rin bus (sdm230_in_addr f) := by
  cases f <;> rfl

/-- C3: on either device family, a per-field error in `read_measurements`
is isolated: with the register read at the `current` field's address
failing, the returned record — which is always fully populated with all 8
fields — has `current = NaN`, while every other field whose read succeeds
holds its decoded float32 value, unaffected by the failure. -/
theorem read_measurements_field_isolation (bus bus' : Nat → RVal)
    (hd : bus (dds661_in_addr MeasKey.current) = RVal.err)
    (hs : bus' (sdm230_in_addr MeasKey.current) = RVal.err) :
    (dds661_read_measurements bus).get MeasKey.current = MFloat.nan ∧
    (∀ f, f ≠ MeasKey.current → ∀ hi lo,
      bus (dds661_in_addr f) = RVal.ok hi lo →
      (dds661_read_measurements bus).get f =
        MFloat.val (registers_to_float hi lo)) ∧
    (sdm230_read_measurements bus').get MeasKey.current = MFloat.nan ∧
    (∀ f, f ≠ MeasKey.current → ∀ hi lo,
      bus' (sdm230_in_addr f) = RVal.ok hi lo →
      (sdm230_read_measurements bus').get f =
        MFloat.val (registers_to_float hi lo)) := by
  refine ⟨?_, ?_, ?_, ?_⟩
  · rw [dds661_read_measurements_get, rin, hd]
  · intro f _ hi lo hok
    rw [dds661_read_measurements_get, rin, hok]
  · rw [sdm230_read_measurements_get, rin, hs]
  · intro f _ hi lo hok
    rw [sdm230_read_measurements_get, rin, hok]

/-- Witness for `read_measurements_field_isolation`: a DDS661 bus failing
exactly at the `current` address `0x0008` and an SDM230 bus failing exactly
at `0x0006`, every other address returning the registers of `9600.0f`;
the voltage fields then decode while `current` is NaN. -/
theorem read_measurements_field_isolation_witness :
    (dds661_read_measurements
        (fun a => if a = 0x0008 then RVal.err else RVal.ok 0x4616 0x0000)).get
      MeasKey.current = MFloat.nan ∧
    (dds661_read_measurements
        (fun a => if a = 0x0008 then RVal.err else RVal.ok 0x4616 0x0000)).get
      MeasKey.voltage = MFloat.val (registers_to_float 0x4616 0x0000) ∧
    (sdm230_read_measurements
        (fun a => if a = 0x0006 then RVal.err else RVal.ok 0x4616 0x0000)).get
      MeasKey.current = MFloat.nan ∧
    (sdm230_read_measurements
        (fun a => if a = 0x0006 then RVal.err else RVal.ok 0x4616 0x0000)).get
      MeasKey.voltage = MFloat.val (registers_to_float 0x4616 0x0000) := by
  have h := read_measurements_field_isolation
    (fun a => if a = 0x0008 then RVal.err else RVal.ok 0x4616 0x0000)
    (fun a => if a = 0x0006 then RVal.err else RVal.ok 0x4616 0x0000)
    (by simp [dds661_in_addr]) (by simp [sdm230_in_addr])
  exact ⟨h.1,
    h.2.1 MeasKey.voltage (by simp) 0x4616 0x0000 (by simp [dds661_in_addr]),
    h.2.2.1,
    h.2.2.2 MeasKey.voltage (by simp) 0x4616 0x0000 (by simp [sdm230_in_addr])⟩

/-! ## Poll cycle orchestrator (`polling.py::_poll_once`,
`dds661_polling.py::_poll_once`)

The per-cycle device loop: for each configured device, inside one
`try/except` block, resolve the device type (an unsupported type logs an
error and `continue`s), run the configured read strategy, and publish the
assembled record; any exception raised by those steps is caught, logged
with the device id, and the loop proceeds to the next device.  The
embedding makes the type table, the read strategy and the publish
collaborator oracles, and the `try/except` an explicit match on their
`Except` results. -/

/-- One configured device entry: unit id and type tag. -/
structure Device where
  id : Nat
  typeTag : String
deriving DecidableEq

/-- What one device contributes to a cycle: a published record, a logged
unsupported-type error, or a logged caught exception. -/
inductive PollDevEv where
  | published (id : Nat) (vals : Measurements)
  | typeError (id : Nat)
  | caught (id : Nat)
deriving DecidableEq

/-- The body of the device loop for one device. -/
def processDevice (known : String → Bool)
    (readDev : Device → Except String Measurements)
    (publishDev : Device → Measurements → Except String Unit)
    (d : Device) : PollDevEv :=
  if known d.typeTag = false then PollDevEv.typeError d.id
  else
    match readDev d with
    | Except.error _ => PollDevEv.caught d.id
    | Except.ok vals =>
      match publishDev d vals with
      | Except.error _ => PollDevEv.caught d.id
      | Except.ok _ => PollDevEv.published d.id vals

/-- `_poll_once` over the configured device list: every device is
processed, each inside its own try/except. -/
def poll_once (known : String → Bool)
    (readDev : Device → Except String Measurements)
    (publishDev : Device → Measurements → Except String Unit)
    (devices : List Device) : List PollDevEv :=
  devices.map (processDevice known readDev publishDev)

/-- C8: a fault in one device never aborts the poll cycle: the cycle always
produces one event per configured device, each device's event depends only
on that device's own processing, and in the 3-device scenario where device
2's type resolution fails while devices 1 and 3 read and publish
successfully, devices 1 and 3 still publish their full records while device
2 only logs. -/
theorem poll_cycle_device_isolation (known : String → Bool)
    (readDev : Device → Except String Measurements)
    (publishDev : Device → Measurements → Except String Unit)
    (d1 d2 d3 : Device) (v1 v3 : Measurements)
    (h2 : known d2.typeTag = false)
    (h1k : known d1.typeTag = true)
    (h1r : readDev d1 = Except.ok v1)
    (h1p : publishDev d1 v1 = Except.ok ())
    (h3k : known d3.typeTag = true)
    (h3r : readDev d3 = Except.ok v3)
    (h3p : publishDev d3 v3 = Except.ok ()) :
    poll_once known readDev publishDev [d1, d2, d3] =
      [PollDevEv.published d1.id v1, PollDevEv.typeError d2.id,
       PollDevEv.published d3.id v3] ∧
    (∀ devices : List Device,
      (poll_once known readDev publishDev devices).length = devices.length) ∧
    (∀ devices : List Device, ∀ i : Nat, ∀ hi : i < devices.length,
      (poll_once known readDev publishDev devices).get
          ⟨i, by simpa [poll_once] using hi⟩ =
        processDevice known readDev publishDev (devices.get ⟨i, hi⟩)) := by
  refine ⟨?_, ?_, ?_⟩
  · simp [poll_once, processDevice, h1k, h1r, h1p, h2, h3k, h3r, h3p]
  · intro devices
    simp [poll_once]
  · intro devices i hi
    simp [poll_once]

/-- Witness for `poll_cycle_device_isolation`: three concrete devices,
device 2 with the unsupported type tag "bogus", reads and publishes
succeeding for the others. -/
theorem poll_cycle_device_isolation_witness :
    poll_once (fun t => t == "dds661")
        (fun _ => Except.ok (dds661_read_measurements (fun _ => RVal.err)))
        (fun _ _ => Except.ok ())
        [⟨1, "dds661"⟩, ⟨2, "bogus"⟩, ⟨3, "dds661"⟩] =
      [PollDevEv.published 1 (dds661_read_measurements (fun _ => RVal.err)),
       PollDevEv.typeError 2,
       PollDevEv.published 3 (dds661_read_measurements (fun _ => RVal.err))] :=
  (poll_cycle_device_isolation (fun t => t == "dds661")
    (fun _ => Except.ok (dds661_read_measurements (fun _ => RVal.err)))
    (fun _ _ => Except.ok ())
    ⟨1, "dds661"⟩ ⟨2, "bogus"⟩ ⟨3, "dds661"⟩
    (dds661_read_measurements (fun _ => RVal.err))
    (dds661_read_measurements (fun _ => RVal.err))
    rfl rfl rfl rfl rfl rfl rfl).1

/-! ## Cycle pacing (`polling.py::run_poll`, `dds661_polling.py::run_poll`)

Both loops: record the cycle start time, run `_poll_once`, compute
`max(0, period - elapsed)` and wait on the stop event for that long; if the
stop event fires during the wait (or is already set when the loop
re-checks), the loop exits.  After the loop, `dds661_polling.py` publishes
a retained "offline" status and disconnects; `polling.py` only stops the
MQTT network loop and disconnects (its "offline" exists solely as the
last-will registered at connect time).

The embedding abstracts real time into a script: one entry per executed
cycle, holding the measured elapsed duration and whether the stop signal
arrives during the subsequent wait; an exhausted script stands for the stop
event being found set at the top of the loop. -/

/-- One observed cycle: its measured duration and whether the cooperative
stop signal arrives during the pacing wait that follows it. -/
structure CycleObs where
  elapsed : ℚ
  stopDuringWait : Bool
deriving DecidableEq

/-- Observable events of a polling loop run. -/
inductive PollEv where
  | cycle
  | sleep (d : ℚ)
  | publishOffline
  | disconnect
deriving DecidableEq

/-- `dds661_polling.py::run_poll` main loop: paced cycles; on stop, publish
the retained "offline" status, then disconnect. -/
def dds661_run_loop (interval : ℚ) : List CycleObs → List PollEv
  | [] => [PollEv.publishOffline, PollEv.disconnect]
  | c :: rest =>
    PollEv.cycle :: PollEv.sleep (max 0 (interval - c.elapsed)) ::
      (if c.stopDuringWait then [PollEv.publishOffline, PollEv.disconnect]
       else dds661_run_loop interval rest)

/-- `polling.py::run_poll` main loop: identical pacing, but after the loop
only `loop_stop()`/`disconnect()` — no "offline" publish. -/
def generic_run_loop (period : ℚ) : List CycleObs → List PollEv
  | [] => [PollEv.disconnect]
  | c :: rest =>
    PollEv.cycle :: PollEv.sleep (max 0 (period - c.elapsed)) ::
      (if c.stopDuringWait then [PollEv.disconnect]
       else generic_run_loop period rest)

lemma dds661_run_loop_sleep (interval : ℚ) (script : List CycleObs) (d : ℚ)
    (h : PollEv.sleep d ∈ dds661_run_loop interval script) :
    ∃ c ∈ script, d = max 0 (interval - c.elapsed) := by
  induction script with
  | nil => simp [dds661_run_loop] at h
  | cons c rest ih =>
    simp only [dds661_run_loop, List.mem_cons] at h
    rcases h with h | h | h
    · exact absurd h (by simp)
    · exact ⟨c, List.mem_cons_self c rest, by injection h⟩
    · split_ifs at h with hstop
      · simp at h
      · obtain ⟨c', hc', hd⟩ := ih h
        exact ⟨c', List.mem_cons_of_mem c hc', hd⟩

lemma generic_run_loop_sleep (period : ℚ) (script : List CycleObs) (d : ℚ)
    (h : PollEv.sleep d ∈ generic_run_loop period script) :
    ∃ c ∈ script, d = max 0 (period - c.elapsed) := by
  induction script with
  | nil => simp [generic_run_loop] at h
  | cons c rest ih =>
    simp only [generic_run_loop, List.mem_cons] at h
    rcases h with h | h | h
    · exact absurd h (by simp)
    · exact ⟨c, List.mem_cons_self c rest, by injection h⟩
    · split_ifs at h with hstop
      · simp at h
      · obtain ⟨c', hc', hd⟩ := ih h
        exact ⟨c', List.mem_cons_of_mem c hc', hd⟩

/-- C9 counterexample: the generic poller (`polling.py::run_poll`) does NOT
publish an "offline" status when the cooperative stop signal arrives during
the pacing sleep: with period 5 and one 1.2-long cycle whose wait is
interrupted by the stop signal, the loop's event trace contains no
offline publish at all — it ends with the disconnect alone. -/
theorem generic_run_loop_no_offline :
    PollEv.publishOffline ∉ generic_run_loop 5 [⟨6 / 5, true⟩] ∧
    generic_run_loop 5 [⟨6 / 5, true⟩] =
      [PollEv.cycle, PollEv.sleep (19 / 5), PollEv.disconnect] := by
  constructor
  · norm_num [generic_run_loop]
    refine ⟨by simp, by simp, by simp⟩
  · norm_num [generic_run_loop]

/-- C9 (amended): both polling loops pace each cycle by sleeping
`max(0, period - elapsed)` — never negative, and zero (immediate
progression) whenever the cycle overruns the period — and a stop signal
arriving during that sleep ends the loop immediately, with no further
cycle; the dds661 poller then publishes the retained "offline" status
before disconnecting, while the generic poller disconnects without any
offline publish. -/
theorem run_loop_pacing (interval : ℚ) (script rest : List CycleObs)
    (c : CycleObs) (hstop : c.stopDuringWait = true) :
    (∀ d, PollEv.sleep d ∈ dds661_run_loop interval script →
      0 ≤ d ∧ ∃ co ∈ script, d = max 0 (interval - co.elapsed)) ∧
    (∀ d, PollEv.sleep d ∈ generic_run_loop interval script →
      0 ≤ d ∧ ∃ co ∈ script, d = max 0 (interval - co.elapsed)) ∧
    (interval ≤ c.elapsed → max 0 (interval - c.elapsed) = 0) ∧
    dds661_run_loop interval (c :: rest) =
      [PollEv.cycle, PollEv.sleep (max 0 (interval - c.elapsed)),
       PollEv.publishOffline, PollEv.disconnect] ∧
    generic_run_loop interval (c :: rest) =
      [PollEv.cycle, PollEv.sleep (max 0 (interval - c.elapsed)),
       PollEv.disconnect] := by
  refine ⟨?_, ?_, ?_, ?_, ?_⟩
  · intro d hd
    exact ⟨by
      obtain ⟨co, _, hco⟩ := dds661_run_loop_sleep interval script d hd
      simp [hco], dds661_run_loop_sleep interval script d hd⟩
  · intro d hd
    exact ⟨by
      obtain ⟨co, _, hco⟩ := generic_run_loop_sleep interval script d hd
      simp [hco], generic_run_loop_sleep interval script d hd⟩
  · intro h
    simp [max_eq_left, sub_nonpos.mpr h]
  · simp [dds661_run_loop, hstop]
  · simp [generic_run_loop, hstop]

/-- Witness for `run_loop_pacing`: period 5, a first cycle of duration 6/5
whose wait the stop signal interrupts (sleep 19/5), and a second script
with an overrunning cycle of duration 7 (sleep 0). -/
theorem run_loop_pacing_witness :
    dds661_run_loop 5 [⟨6 / 5, true⟩] =
      [PollEv.cycle, PollEv.sleep (max 0 (5 - 6 / 5)),
       PollEv.publishOffline, PollEv.disconnect] ∧
    generic_run_loop 5 [⟨6 / 5, true⟩] =
      [PollEv.cycle, PollEv.sleep (max 0 (5 - 6 / 5)),
       PollEv.disconnect] ∧
    max (0 : ℚ) (5 - (7 : ℚ)) = 0 := by
  have h := run_loop_pacing 5 [] [] ⟨6 / 5, true⟩ rfl
  have h7 := run_loop_pacing 5 [] [] ⟨7, true⟩ rfl
  exact ⟨h.2.2.2.1, h.2.2.2.2, h7.2.2.1 (by norm_num)⟩

end DDS661Spec
